import Mathlib

/-!
Verification of the smart-microgrid digital-twin dashboard.

Shallow embedding of the simulation and observability code:
* `src/digital_twin_dashboard.py` — `SimulationDataGenerator.get_state`
* `src/app.py` — the second `SimulationDataGenerator.get_state`
* `src/pages/3_Safety_Analyzer.py` — the SAOCP calibration simulation
* `src/streamlit_demo.py` — the Live Simulation control loop
* `src/components/realtime_charts.py` — `RealtimeChartManager._track_cbf_event`

Python floats are modelled as real numbers; `random.gauss` / `random.random`
draws are explicit real-valued inputs; `bool` results of comparisons are
modelled with `decide` over the classical order on `ℝ`.
-/

namespace DigitalTwin

/-- Scenario enum (src/components/control_panel.py, `class ScenarioType`),
also the fallback enum in `src/digital_twin_dashboard.py`. -/
inductive ScenarioType
  | normal
  | heatwave
  | cloudCover
  | cyberAttack
deriving DecidableEq, Repr

/-- The `.value` string of each enum member
(src/components/control_panel.py lines 11-15). -/
def ScenarioType.value : ScenarioType → String
  | .normal => "Normal Operation"
  | .heatwave => "Heatwave (High Load)"
  | .cloudCover => "Heavy Cloud Cover (Low PV)"
  | .cyberAttack => "Cyber Attack / Safety Violation"

/-- The random draws consumed by one call of
`SimulationDataGenerator.get_state`: each `random.gauss(0, s)` and the
`random.random()` of the cloud-cover branch, as explicit inputs. -/
structure Noise where
  nVoltage : ℝ
  nFrequency : ℝ
  nSoc : ℝ
  nPv : ℝ
  nLoad : ℝ
  rCloud : ℝ
  nBarrierAttack : ℝ
  nBattery : ℝ
  nGrid : ℝ

/-- All-zero draws (every gauss at its mean, `random.random()` at 0). -/
def Noise.zero : Noise := ⟨0, 0, 0, 0, 0, 0, 0, 0, 0⟩

/-- The mutable fields of `SimulationDataGenerator`
(src/digital_twin_dashboard.py, `__init__`). `start_time` is folded into
the elapsed-time argument `t` of `getState`. -/
structure GenState where
  step : ℕ
  voltage : ℝ
  frequency : ℝ
  soc : ℝ
  pv : ℝ
  load : ℝ
  barrier : ℝ
  scenario : ScenarioType
  paramLambda : ℝ
  paramGamma : ℝ

/-- Initial generator state (src/digital_twin_dashboard.py lines 329-339). -/
def GenState.init : GenState :=
  { step := 0, voltage := 230.0, frequency := 50.0, soc := 0.65
    pv := 25.0, load := 35.0, barrier := 12.0
    scenario := .normal, paramLambda := 0.1, paramGamma := 1.0 }

/-- The dict returned by `get_state`
(src/digital_twin_dashboard.py lines 433-453), as a record. -/
structure StateRecord where
  step : ℕ
  timestamp : ℝ
  voltage : ℝ
  frequency : ℝ
  soc : ℝ
  p_pv : ℝ
  p_load : ℝ
  p_battery : ℝ
  p_grid : ℝ
  barrier_value : ℝ
  cbf_active : Bool
  is_safe : Bool
  safety_margin : ℝ
  sigma_calibrated : ℝ
  prediction_mean : ℝ
  prediction_std : ℝ
  tariff : ℝ
  time_of_day : ℝ
  scenario : String

/-- Python's `%` on reals with a positive divisor: `a - b * ⌊a / b⌋`
(result in `[0, b)` for `b > 0`), used for `hour = (t / 10) % 24`. -/
noncomputable def pyMod (a b : ℝ) : ℝ := a - b * ⌊a / b⌋

/-- Voltage drift and clamp (src/digital_twin_dashboard.py lines 359-360):
`self._voltage += 0.1 * math.sin(t * 0.5) + random.gauss(0, 0.05)` then
`self._voltage = max(218, min(242, self._voltage))`. -/
noncomputable def nextVoltage (v t nv : ℝ) : ℝ :=
  max 218 (min 242 (v + 0.1 * Real.sin (t * 0.5) + nv))

/-- Frequency drift and clamp (lines 363-364). -/
noncomputable def nextFrequency (f t nf : ℝ) : ℝ :=
  max 49.2 (min 50.8 (f + 0.01 * Real.sin (t * 0.3) + nf))

/-- SOC trend and clamp (lines 367-369). -/
noncomputable def nextSoc (s t ns : ℝ) : ℝ :=
  max 0.15 (min 0.95 (s + 0.0005 * Real.sin (t * 0.1) + ns))

/-- Accelerated day cycle, `hour = (t / 10) % 24` (line 372). -/
noncomputable def hourOf (t : ℝ) : ℝ := pyMod (t / 10) 24

/-- Sun factor (line 373). -/
noncomputable def sunFactor (hour : ℝ) : ℝ :=
  if 6 ≤ hour ∧ hour ≤ 18 then max 0 (Real.sin (Real.pi * (hour - 6) / 12)) else 0

/-- PV relaxation toward the sun-driven target and clamp (lines 374-375). -/
noncomputable def nextPv (pv t np : ℝ) : ℝ :=
  max 0 (min 50 (pv + 0.5 * (35 * sunFactor (hourOf t) - pv) * 0.1 + np))

/-- Load drift and clamp (lines 378-379). -/
noncomputable def nextLoad (ld t nl : ℝ) : ℝ :=
  max 20 (min 50 (ld + 0.3 * Real.sin (t * 0.2) + nl))

/-- Scenario override of the load (lines 382-384). -/
noncomputable def loadOverride (sc : ScenarioType) (t ld : ℝ) : ℝ :=
  if sc = .heatwave then 45.0 + 5 * Real.sin (t * 0.2) else ld

/-- Scenario override of the PV (lines 382-391). -/
noncomputable def pvOverride (sc : ScenarioType) (t r pv : ℝ) : ℝ :=
  if sc = .heatwave then 15.0 + 2 * Real.sin (t * 0.1)
  else if sc = .cloudCover then 5.0 + 2 * r
  else pv

/-- Cyber-attack override of the voltage (lines 393-396). -/
noncomputable def voltageOverride (sc : ScenarioType) (t v : ℝ) : ℝ :=
  if sc = .cyberAttack then 255.0 + 5 * Real.sin t else v

/-- Cyber-attack override of the SOC (line 398). -/
noncomputable def socOverride (sc : ScenarioType) (t s : ℝ) : ℝ :=
  if sc = .cyberAttack then 0.05 + 0.01 * Real.sin t else s

/-- Cyber-attack override of the frequency (line 400). -/
noncomputable def frequencyOverride (sc : ScenarioType) (t f : ℝ) : ℝ :=
  if sc = .cyberAttack then 51.5 + 0.5 * Real.sin (t * 2) else f

/-- The barrier update (lines 402-414): forced negative under cyber attack,
otherwise it relaxes toward `min(v_margin, soc_margin)` computed from the
updated (un-overridden) voltage and SOC. -/
noncomputable def nextBarrier (sc : ScenarioType) (barrier voltage soc nb : ℝ) : ℝ :=
  if sc = .cyberAttack then -5.0 + nb
  else
    let vMargin := min (242 - voltage) (voltage - 218)
    let socMargin := (soc - 0.15) * 100
    let targetBarrier := min vMargin socMargin
    barrier + 0.2 * (targetBarrier - barrier)

/-- Shallow embedding of `SimulationDataGenerator.get_state`
(src/digital_twin_dashboard.py lines 352-453): `t` is
`time.time() - self.start_time`, `z` the random draws of this call.
Returns the updated generator state and the emitted record. -/
noncomputable def getState (g : GenState) (t : ℝ) (z : Noise) :
    GenState × StateRecord :=
  let step' := g.step + 1
  let voltage' := nextVoltage g.voltage t z.nVoltage
  let frequency' := nextFrequency g.frequency t z.nFrequency
  let soc' := nextSoc g.soc t z.nSoc
  let hour := hourOf t
  let pv' := nextPv g.pv t z.nPv
  let load' := nextLoad g.load t z.nLoad
  -- Scenario overrides
  let load2 := loadOverride g.scenario t load'
  let pv2 := pvOverride g.scenario t z.rCloud pv'
  let voltage2 := voltageOverride g.scenario t voltage'
  let soc2 := socOverride g.scenario t soc'
  let frequency2 := frequencyOverride g.scenario t frequency'
  let barrier2 := nextBarrier g.scenario g.barrier voltage' soc' z.nBarrierAttack
  -- CBF control-logic simulation: activation threshold on the barrier
  let cbfActive : Bool := decide (barrier2 < 2.0)
  -- Safety check
  let isSafe : Bool := decide (0 < barrier2)
  -- Power balance
  let pBattery := pv2 - load2 + z.nBattery
  let pGrid := -pBattery * 0.3 + z.nGrid
  (⟨step', voltage2, frequency2, soc2, pv2, load2, barrier2,
    g.scenario, g.paramLambda, g.paramGamma⟩,
   { step := step'
     timestamp := t
     voltage := voltage2
     frequency := frequency2
     soc := soc2
     p_pv := pv2
     p_load := load2
     p_battery := pBattery
     p_grid := pGrid
     barrier_value := barrier2
     cbf_active := cbfActive
     is_safe := isSafe
     safety_margin := max 0 barrier2
     sigma_calibrated := 0.8 + 0.1 * Real.sin (t * 0.4)
     prediction_mean := voltage2
     prediction_std := 1.5 + 0.5 * |Real.sin (t * 0.3)|
     tariff := if 8 ≤ hour ∧ hour ≤ 20 then 0.19 else 0.11
     time_of_day := hour
     scenario := g.scenario.value })

/-- The SAOCP calibration update applied in the Safety Analyzer simulation
(src/pages/3_Safety_Analyzer.py line 501):
`eta = eta + 0.01 * (0.90 - cov)`. The code applies it (for `i > 100`) with
no clipping of `eta` whatsoever. -/
def saocpUpdate (eta cov : ℚ) : ℚ := eta + 0.01 * (0.90 - cov)

end DigitalTwin

namespace DigitalTwin

/-- C1: for every state emitted per timestep, the `is_safe` flag equals the
predicate `barrier_value > 0` evaluated on the current realized state:
`is_safe` is true exactly when the emitted barrier value is strictly
positive, and false when it is zero or negative. -/
theorem is_safe_eq_barrier_pos (g : GenState) (t : ℝ) (z : Noise) :
    (getState g t z).2.is_safe = decide (0 < (getState g t z).2.barrier_value) ∧
      ((getState g t z).2.is_safe = true ↔ 0 < (getState g t z).2.barrier_value) := by
  refine ⟨rfl, ?_⟩
  simp [getState]

/-- C2 (amended): for every emitted state, `cbf_active` is exactly the
threshold test `barrier_value < 2.0` on the emitted barrier value; the
generator computes no nominal or safe action at all. -/
theorem cbf_active_eq_threshold (g : GenState) (t : ℝ) (z : Noise) :
    (getState g t z).2.cbf_active = decide ((getState g t z).2.barrier_value < 2.0) :=
  rfl

/-- C2 counterexample: a concrete call in which the system is strictly safe
(`is_safe = true`, emitted barrier value `1.6 > 0`), no action is computed,
let alone modified, and yet `cbf_active = true` — the flag fires purely
because the barrier dipped under the 2.0 threshold, so it does not signal a
binding safety constraint. -/
theorem cbf_active_true_in_safe_state :
    (getState { GenState.init with barrier := -1 } 0 Noise.zero).2.cbf_active = true ∧
      (getState { GenState.init with barrier := -1 } 0 Noise.zero).2.is_safe = true ∧
      (getState { GenState.init with barrier := -1 } 0 Noise.zero).2.barrier_value = 1.6 := by
  refine ⟨?_, ?_, ?_⟩ <;>
    simp only [getState, GenState.init, Noise.zero, nextBarrier, nextVoltage, nextSoc] <;>
    norm_num [Real.sin_zero, (by decide : ScenarioType.normal ≠ ScenarioType.cyberAttack)]

/-- C3 (amended): for every emitted state, `sigma_calibrated` equals the
pure time sinusoid `0.8 + 0.1 * sin(0.4 t)`; it does not depend on any
calibration multiplier or on the emitted `prediction_std`. -/
theorem sigma_calibrated_formula (g : GenState) (t : ℝ) (z : Noise) :
    (getState g t z).2.sigma_calibrated = 0.8 + 0.1 * Real.sin (t * 0.4) :=
  rfl

/-- C3 counterexample: two concrete calls with identical generator state,
noise and raw ensemble standard deviation (`prediction_std = 1.5` in both)
but different `sigma_calibrated`, so `sigma_calibrated` is not
`eta * raw_std` for any fixed multiplier `eta`, and is not a function of
the raw uncertainty at all. -/
theorem sigma_calibrated_not_prop_to_std :
    (getState GenState.init 0 Noise.zero).2.prediction_std =
        (getState GenState.init (10 * Real.pi / 3) Noise.zero).2.prediction_std ∧
      (getState GenState.init (10 * Real.pi / 3) Noise.zero).2.sigma_calibrated <
        (getState GenState.init 0 Noise.zero).2.sigma_calibrated := by
  have hstd : (10 * Real.pi / 3) * 0.3 = Real.pi := by ring
  have hsig : (10 * Real.pi / 3) * 0.4 = Real.pi / 3 + Real.pi := by ring
  constructor
  · show 1.5 + 0.5 * |Real.sin (0 * 0.3)| = 1.5 + 0.5 * |Real.sin ((10 * Real.pi / 3) * 0.3)|
    rw [hstd, Real.sin_pi, zero_mul, Real.sin_zero]
  · show 0.8 + 0.1 * Real.sin ((10 * Real.pi / 3) * 0.4) < 0.8 + 0.1 * Real.sin (0 * 0.4)
    rw [hsig, Real.sin_add_pi, Real.sin_pi_div_three, zero_mul, Real.sin_zero]
    have h3 : (0 : ℝ) < Real.sqrt 3 := Real.sqrt_pos.mpr (by norm_num)
    nlinarith

/-- C9: for every emitted state, `safety_margin` equals
`max 0 barrier_value`; it is always nonnegative and strictly positive
exactly when `is_safe` is true. -/
theorem safety_margin_spec (g : GenState) (t : ℝ) (z : Noise) :
    (getState g t z).2.safety_margin = max 0 (getState g t z).2.barrier_value ∧
      0 ≤ (getState g t z).2.safety_margin ∧
      (0 < (getState g t z).2.safety_margin ↔ (getState g t z).2.is_safe = true) := by
  refine ⟨rfl, ?_, ?_⟩
  · exact le_max_left _ _
  · simp [getState, lt_max_iff]

/-- C4: the calibration update is `eta + alpha * (target - coverage)` with
`alpha = 0.01` and `target = 0.90`: coverage strictly below target makes
`eta` strictly increase, coverage strictly above target makes it strictly
decrease — the update sign never inverts. -/
theorem saocpUpdate_sign (eta cov : ℚ) :
    saocpUpdate eta cov = eta + 0.01 * (0.90 - cov) ∧
      (cov < 0.90 → eta < saocpUpdate eta cov) ∧
      (0.90 < cov → saocpUpdate eta cov < eta) := by
  refine ⟨rfl, ?_, ?_⟩ <;> intro h <;> unfold saocpUpdate <;> nlinarith

/-- C4 witness: at `eta = 1`, coverage `0.5` below target raises `eta` and
coverage `1` above target lowers it. -/
theorem saocpUpdate_sign_witness :
    (1 : ℚ) < saocpUpdate 1 0.5 ∧ saocpUpdate 1 1 < (1 : ℚ) :=
  ⟨(saocpUpdate_sign 1 0.5).2.1 (by norm_num), (saocpUpdate_sign 1 1).2.2 (by norm_num)⟩

/-- Closed form of iterating the calibration update at constant coverage 1
(coverage held above the 0.90 target): each step lowers `eta` by 1/1000. -/
theorem saocpUpdate_iterate_cov_one (n : ℕ) :
    (fun e => saocpUpdate e 1)^[n] (1 : ℚ) = 1 - n / 1000 := by
  induction n with
  | zero => simp
  | succ k ih =>
      rw [Function.iterate_succ_apply', ih]
      unfold saocpUpdate
      push_cast
      ring

/-- C5 counterexample: the code clips `eta` to no interval at all — after
1001 consecutive updates with observed coverage 1 (above the 0.90 target),
`eta` starting from 1.0 has become strictly negative, so no bound
`eta >= eta_min > 0` is maintained. -/
theorem eta_not_clipped_goes_negative :
    (fun e => saocpUpdate e 1)^[1001] (1 : ℚ) < 0 := by
  rw [saocpUpdate_iterate_cov_one]
  norm_num

/-- C5 (amended): the dashboard's emitted `sigma_calibrated` is strictly
positive for every generator state, time and noise — but only because it is
the fixed sinusoid `0.8 + 0.1 * sin(0.4 t)`, bounded in `[0.7, 0.9]`,
independent of the calibrator's (unclipped) `eta`. -/
theorem sigma_calibrated_pos (g : GenState) (t : ℝ) (z : Noise) :
    0 < (getState g t z).2.sigma_calibrated ∧
      0.7 ≤ (getState g t z).2.sigma_calibrated ∧
      (getState g t z).2.sigma_calibrated ≤ 0.9 := by
  have h1 : -1 ≤ Real.sin (t * 0.4) := Real.neg_one_le_sin _
  have h2 : Real.sin (t * 0.4) ≤ 1 := Real.sin_le_one _
  have he : (getState g t z).2.sigma_calibrated = 0.8 + 0.1 * Real.sin (t * 0.4) := rfl
  rw [he]
  refine ⟨by nlinarith, by nlinarith, by nlinarith⟩

/-- Bounds of the clamp pattern `max lo (min hi x)` used throughout
`get_state`. -/
theorem clamp_bounds {lo hi x : ℝ} (h : lo ≤ hi) :
    lo ≤ max lo (min hi x) ∧ max lo (min hi x) ≤ hi :=
  ⟨le_max_left _ _, max_le h (min_le_left _ _)⟩

/-- The clamped voltage always lands in `[218, 242]`. -/
theorem nextVoltage_mem (v t nv : ℝ) :
    218 ≤ nextVoltage v t nv ∧ nextVoltage v t nv ≤ 242 :=
  clamp_bounds (by norm_num)

/-- The clamped frequency always lands in `[49.2, 50.8]`. -/
theorem nextFrequency_mem (f t nf : ℝ) :
    49.2 ≤ nextFrequency f t nf ∧ nextFrequency f t nf ≤ 50.8 :=
  clamp_bounds (by norm_num)

/-- The clamped SOC always lands in `[0.15, 0.95]`. -/
theorem nextSoc_mem (s t ns : ℝ) :
    0.15 ≤ nextSoc s t ns ∧ nextSoc s t ns ≤ 0.95 :=
  clamp_bounds (by norm_num)

/-- The clamped PV always lands in `[0, 50]`. -/
theorem nextPv_mem (pv t np : ℝ) :
    0 ≤ nextPv pv t np ∧ nextPv pv t np ≤ 50 :=
  clamp_bounds (by norm_num)

/-- The clamped load always lands in `[20, 50]`. -/
theorem nextLoad_mem (ld t nl : ℝ) :
    20 ≤ nextLoad ld t nl ∧ nextLoad ld t nl ≤ 50 :=
  clamp_bounds (by norm_num)

/-- Outside the cyber attack the voltage override is the identity. -/
theorem voltageOverride_of_ne {sc : ScenarioType} (h : sc ≠ .cyberAttack) (t v : ℝ) :
    voltageOverride sc t v = v := if_neg h

/-- Outside the cyber attack the SOC override is the identity. -/
theorem socOverride_of_ne {sc : ScenarioType} (h : sc ≠ .cyberAttack) (t s : ℝ) :
    socOverride sc t s = s := if_neg h

/-- Outside the cyber attack the frequency override is the identity. -/
theorem frequencyOverride_of_ne {sc : ScenarioType} (h : sc ≠ .cyberAttack) (t f : ℝ) :
    frequencyOverride sc t f = f := if_neg h

/-- In every scenario the overridden load stays in `[20, 50]` whenever the
incoming load does: the heatwave override `45 + 5 sin` does too. -/
theorem loadOverride_mem (sc : ScenarioType) (t ld : ℝ)
    (h : 20 ≤ ld ∧ ld ≤ 50) :
    20 ≤ loadOverride sc t ld ∧ loadOverride sc t ld ≤ 50 := by
  unfold loadOverride
  split
  · have h1 := Real.neg_one_le_sin (t * 0.2)
    have h2 := Real.sin_le_one (t * 0.2)
    constructor <;> nlinarith
  · exact h

/-- In every scenario the overridden PV stays in `[0, 50]` whenever the
incoming PV does and the uniform draw lies in `[0, 1]`: the heatwave
override `15 + 2 sin` and the cloud-cover override `5 + 2 r` do too. -/
theorem pvOverride_mem (sc : ScenarioType) (t r pv : ℝ)
    (hr : 0 ≤ r ∧ r ≤ 1) (h : 0 ≤ pv ∧ pv ≤ 50) :
    0 ≤ pvOverride sc t r pv ∧ pvOverride sc t r pv ≤ 50 := by
  unfold pvOverride
  split
  · have h1 := Real.neg_one_le_sin (t * 0.1)
    have h2 := Real.sin_le_one (t * 0.1)
    constructor <;> nlinarith
  · split
    · constructor <;> nlinarith [hr.1, hr.2]
    · exact h

/-- C10: in every scenario other than CYBER_ATTACK, the emitted state
satisfies `voltage ∈ [218, 242]`, `frequency ∈ [49.2, 50.8]`,
`soc ∈ [0.15, 0.95]`, `p_pv ∈ [0, 50]` and `p_load ∈ [20, 50]`, for every
generator state (reachable or not), every elapsed time and every noise
draw with `random.random() ∈ [0, 1]`. -/
theorem envelope_invariant (g : GenState) (t : ℝ) (z : Noise)
    (hs : g.scenario ≠ ScenarioType.cyberAttack)
    (hr0 : 0 ≤ z.rCloud) (hr1 : z.rCloud ≤ 1) :
    (218 ≤ (getState g t z).2.voltage ∧ (getState g t z).2.voltage ≤ 242) ∧
      (49.2 ≤ (getState g t z).2.frequency ∧ (getState g t z).2.frequency ≤ 50.8) ∧
      (0.15 ≤ (getState g t z).2.soc ∧ (getState g t z).2.soc ≤ 0.95) ∧
      (0 ≤ (getState g t z).2.p_pv ∧ (getState g t z).2.p_pv ≤ 50) ∧
      (20 ≤ (getState g t z).2.p_load ∧ (getState g t z).2.p_load ≤ 50) := by
  have hvolt : (getState g t z).2.voltage
      = voltageOverride g.scenario t (nextVoltage g.voltage t z.nVoltage) := rfl
  have hfreq : (getState g t z).2.frequency
      = frequencyOverride g.scenario t (nextFrequency g.frequency t z.nFrequency) := rfl
  have hsoc : (getState g t z).2.soc
      = socOverride g.scenario t (nextSoc g.soc t z.nSoc) := rfl
  have hpv : (getState g t z).2.p_pv
      = pvOverride g.scenario t z.rCloud (nextPv g.pv t z.nPv) := rfl
  have hload : (getState g t z).2.p_load
      = loadOverride g.scenario t (nextLoad g.load t z.nLoad) := rfl
  rw [hvolt, hfreq, hsoc, hpv, hload, voltageOverride_of_ne hs,
    frequencyOverride_of_ne hs, socOverride_of_ne hs]
  exact ⟨nextVoltage_mem _ _ _, nextFrequency_mem _ _ _, nextSoc_mem _ _ _,
    pvOverride_mem _ _ _ _ ⟨hr0, hr1⟩ (nextPv_mem _ _ _),
    loadOverride_mem _ _ _ (nextLoad_mem _ _ _)⟩

/-- C10 witness: the envelope holds concretely at the initial generator
state (scenario NORMAL), time 0 and all-zero noise draws. -/
theorem envelope_invariant_witness :
    GenState.init.scenario ≠ ScenarioType.cyberAttack ∧
      (0 : ℝ) ≤ Noise.zero.rCloud ∧ Noise.zero.rCloud ≤ 1 ∧
      (218 ≤ (getState GenState.init 0 Noise.zero).2.voltage ∧
        (getState GenState.init 0 Noise.zero).2.voltage ≤ 242) ∧
      (20 ≤ (getState GenState.init 0 Noise.zero).2.p_load ∧
        (getState GenState.init 0 Noise.zero).2.p_load ≤ 50) :=
  ⟨by decide, by norm_num [Noise.zero], by norm_num [Noise.zero],
    (envelope_invariant GenState.init 0 Noise.zero (by decide)
      (by norm_num [Noise.zero]) (by norm_num [Noise.zero])).1,
    (envelope_invariant GenState.init 0 Noise.zero (by decide)
      (by norm_num [Noise.zero]) (by norm_num [Noise.zero])).2.2.2.2⟩

/-- The keys of the dict literal returned by
`SimulationDataGenerator.get_state` in src/digital_twin_dashboard.py
(lines 433-453), in source order. -/
def digitalTwinRecordKeys : List String :=
  ["step", "timestamp", "voltage", "frequency", "soc", "p_pv", "p_load",
   "p_battery", "p_grid", "barrier_value", "cbf_active", "is_safe",
   "safety_margin", "sigma_calibrated", "prediction_mean", "prediction_std",
   "tariff", "time_of_day", "scenario"]

/-- The keys of the dict literal returned by
`SimulationDataGenerator.get_state` in src/app.py (lines 241-256), in
source order. -/
def appRecordKeys : List String :=
  ["step", "timestamp", "voltage", "frequency", "soc", "p_pv", "p_load",
   "p_battery", "p_grid", "barrier_value", "cbf_active", "is_safe",
   "safety_margin", "scenario"]

/-- The fourteen contract fields the spec requires in every emitted state
record. -/
def contractFields : List String :=
  ["voltage", "frequency", "soc", "p_pv", "p_load", "p_battery", "p_grid",
   "barrier_value", "cbf_active", "is_safe", "safety_margin",
   "sigma_calibrated", "prediction_mean", "prediction_std"]

/-- C6 (amended): every contract field is a key of the record emitted by
the digital_twin_dashboard generator, and every contract field other than
`sigma_calibrated`, `prediction_mean` and `prediction_std` is a key of the
record emitted by the app.py generator. -/
theorem contract_fields_presence :
    contractFields.all (fun k => digitalTwinRecordKeys.contains k) = true ∧
      contractFields.all (fun k =>
        appRecordKeys.contains k ||
          (k == "sigma_calibrated" || k == "prediction_mean" ||
            k == "prediction_std")) = true := by
  decide

/-- C6 counterexample: the app.py generator's record omits three of the
fourteen contract fields. -/
theorem app_record_missing_prediction_fields :
    "sigma_calibrated" ∉ appRecordKeys ∧
      "prediction_mean" ∉ appRecordKeys ∧
      "prediction_std" ∉ appRecordKeys := by
  decide

end DigitalTwin

namespace StreamlitDemo

/-- The component operations the Live Simulation loop can invoke
(src/streamlit_demo.py): the four it actually calls, plus the calibrator
update and the watchdog check named by the spec's per-step ordering. -/
inductive DemoOp
  | predict
  | calibrate
  | filterAction
  | envStep
  | saocpUpdateCall
  | watchdogCheck
deriving DecidableEq, Repr

/-- The components the loop consumes. Their implementations
(`src.dynamics.ensemble_nn`, `src.uncertainty.saocp_calibrator`,
`src.safety.cbf_filter`, `src.environments.microgrid_env`) are imported
from outside this repository, so they are opaque parameters here; the
`[0]` indexing of `pred_mean` / `pred_std` is absorbed into the opaque
prediction type `P`. `policy` models the fresh `np.random.uniform` draw of
each iteration. `envStep` returns
`(next_state, reward, terminated, truncated)`. -/
structure Components (S A P : Type) where
  policy : ℕ → A
  predict : S → A → P × ℝ
  calibrate : ℝ → ℝ
  filterAction : S → A → P → ℝ → A
  envStep : S → A → S × ℝ × Bool × Bool

/-- Shallow embedding of the Live Simulation loop body
(src/streamlit_demo.py lines 175-199). Each iteration: sample an action,
`ensemble.predict`, `saocp.calibrate`, `cbf.filter_action`, `env.step`,
store `(state, action_safe, reward)`, break on termination or truncation,
else continue from `next_state`. The fourth component of the result is the
trace of component calls the loop made, in order. -/
def runDemo {S A P : Type} (c : Components S A P) :
    ℕ → ℕ → S → List S × List A × List ℝ × List DemoOp
  | 0, _, _ => ([], [], [], [])
  | n + 1, i, state =>
      let action := c.policy i
      let pred := c.predict state action
      let sigmaCal := c.calibrate pred.2
      let actionSafe := c.filterAction state action pred.1 sigmaCal
      let stepRes := c.envStep state actionSafe
      let ops : List DemoOp := [.predict, .calibrate, .filterAction, .envStep]
      if stepRes.2.2.1 || stepRes.2.2.2 then
        ([state], [actionSafe], [stepRes.2.1], ops)
      else
        let rest := runDemo c n (i + 1) stepRes.1
        (state :: rest.1, actionSafe :: rest.2.1, stepRes.2.1 :: rest.2.2.1,
          ops ++ rest.2.2.2)

/-- C7 (amended): for every choice of components, step budget and initial
state, the Live Simulation loop's call trace is some number of repetitions
of exactly `predict`, `calibrate`, `filter_action`, `env.step` in that
strict order, and the loop never invokes the calibrator's `update` nor any
watchdog `check`. -/
theorem demo_loop_trace {S A P : Type} (c : Components S A P) (n i : ℕ) (s : S) :
    (∃ k, (runDemo c n i s).2.2.2 =
        (List.replicate k
          [DemoOp.predict, DemoOp.calibrate, DemoOp.filterAction, DemoOp.envStep]).flatten) ∧
      DemoOp.saocpUpdateCall ∉ (runDemo c n i s).2.2.2 ∧
      DemoOp.watchdogCheck ∉ (runDemo c n i s).2.2.2 := by
  induction n generalizing i s with
  | zero =>
      refine ⟨⟨0, ?_⟩, ?_, ?_⟩ <;> simp [runDemo]
  | succ m ih =>
      simp only [runDemo]
      split
      · refine ⟨⟨1, ?_⟩, ?_, ?_⟩ <;> simp
      · obtain ⟨⟨k, hk⟩, hu, hw⟩ := ih (i + 1) ((c.envStep s (c.filterAction s (c.policy i)
          (c.predict s (c.policy i)).1 (c.calibrate (c.predict s (c.policy i)).2))).1)
        refine ⟨⟨k + 1, ?_⟩, ?_, ?_⟩
        · simp [List.replicate_succ, hk]
        · simp [hu]
        · simp [hw]

/-- A concrete instantiation of the loop's components over trivial data,
never terminating early, used to exhibit a concrete trace. -/
def trivialComponents : Components Unit Unit Unit where
  policy := fun _ => ()
  predict := fun _ _ => ((), 0)
  calibrate := fun _ => 0
  filterAction := fun _ _ _ _ => ()
  envStep := fun _ _ => ((), 0, false, false)

/-- C7 counterexample: a concrete two-iteration run whose full call trace
is `predict, calibrate, filter_action, env.step` twice — no
`SAOCPCalibrator.update` and no `Watchdog.check` occurs in any step. -/
theorem demo_loop_no_update_no_watchdog :
    (runDemo trivialComponents 2 0 ()).2.2.2 =
        [DemoOp.predict, DemoOp.calibrate, DemoOp.filterAction, DemoOp.envStep,
         DemoOp.predict, DemoOp.calibrate, DemoOp.filterAction, DemoOp.envStep] ∧
      DemoOp.saocpUpdateCall ∉ (runDemo trivialComponents 2 0 ()).2.2.2 ∧
      DemoOp.watchdogCheck ∉ (runDemo trivialComponents 2 0 ()).2.2.2 := by
  refine ⟨rfl, ?_, ?_⟩ <;> simp [runDemo, trivialComponents]

end StreamlitDemo

namespace RealtimeCharts

/-- Event types `CBFEventType` (src/components/realtime_charts.py lines 96-101). -/
inductive CBFEventType
  | monitoring
  | intervening
  | violation
  | recovered
deriving DecidableEq, Repr

/-- Event record `CBFEvent` (src/components/realtime_charts.py lines 294-301); the
optional `action_taken` / `duration` fields are never set by
`_track_cbf_event` and are omitted. -/
structure CBFEvent where
  timestamp : ℝ
  event_type : CBFEventType
  barrier_value : ℝ

/-- The qualitative state computed by `_track_cbf_event`
(src/components/realtime_charts.py lines 303-309): violation if not safe,
else intervening if the CBF is active, else monitoring. -/
def eventTypeOf (is_safe cbf_active : Bool) : CBFEventType :=
  if !is_safe then .violation
  else if cbf_active then .intervening
  else .monitoring

/-- Embedding of `RealtimeChartManager._track_cbf_event`
(src/components/realtime_charts.py lines 286-322): appends a new
timestamped event unless the log is nonempty and its last event has the
same type. -/
def trackCbfEvent (events : List CBFEvent) (timestamp barrier_value : ℝ)
    (cbf_active is_safe : Bool) : List CBFEvent :=
  match events.getLast? with
  | some lastEvent =>
      if lastEvent.event_type = eventTypeOf is_safe cbf_active then events
      else events ++ [⟨timestamp, eventTypeOf is_safe cbf_active, barrier_value⟩]
  | none => events ++ [⟨timestamp, eventTypeOf is_safe cbf_active, barrier_value⟩]

/-- On an empty log (no last event) the update appends the new event. -/
theorem trackCbfEvent_last_none {events : List CBFEvent} (ts bv : ℝ) (ca sf : Bool)
    (h : events.getLast? = none) :
    trackCbfEvent events ts bv ca sf = events ++ [⟨ts, eventTypeOf sf ca, bv⟩] := by
  unfold trackCbfEvent
  rw [h]

/-- When the last event has the same type, the log is returned unchanged. -/
theorem trackCbfEvent_last_same {events : List CBFEvent} {l : CBFEvent}
    (ts bv : ℝ) (ca sf : Bool) (h : events.getLast? = some l)
    (he : l.event_type = eventTypeOf sf ca) :
    trackCbfEvent events ts bv ca sf = events := by
  unfold trackCbfEvent
  rw [h]
  exact if_pos he

/-- When the last event has a different type, the new event is appended. -/
theorem trackCbfEvent_last_diff {events : List CBFEvent} {l : CBFEvent}
    (ts bv : ℝ) (ca sf : Bool) (h : events.getLast? = some l)
    (he : l.event_type ≠ eventTypeOf sf ca) :
    trackCbfEvent events ts bv ca sf = events ++ [⟨ts, eventTypeOf sf ca, bv⟩] := by
  unfold trackCbfEvent
  rw [h]
  exact if_neg he

/-- C8: an update appends a new timestamped event exactly when the log is
empty or the qualitative state differs from the type of the most recently
recorded event (so the first update always records one); the update never
removes or modifies recorded events (it returns the log unchanged or the
log with one event appended), and it preserves the invariant that any two
consecutive events have distinct types. -/
theorem trackCbfEvent_spec (events : List CBFEvent) (ts bv : ℝ) (ca sf : Bool) :
    (trackCbfEvent events ts bv ca sf = events ∨
        trackCbfEvent events ts bv ca sf =
          events ++ [⟨ts, eventTypeOf sf ca, bv⟩]) ∧
      (events = [] →
        trackCbfEvent events ts bv ca sf = [⟨ts, eventTypeOf sf ca, bv⟩]) ∧
      (trackCbfEvent events ts bv ca sf = events ↔
        ∃ l, events.getLast? = some l ∧ l.event_type = eventTypeOf sf ca) ∧
      (List.Chain' (fun a b => a.event_type ≠ b.event_type) events →
        List.Chain' (fun a b => a.event_type ≠ b.event_type)
          (trackCbfEvent events ts bv ca sf)) := by
  cases hlast : events.getLast? with
  | none =>
      have hnil : events = [] := List.getLast?_eq_none_iff.mp hlast
      subst hnil
      rw [@trackCbfEvent_last_none [] ts bv ca sf rfl]
      refine ⟨Or.inr rfl, fun _ => rfl, ?_, fun _ => ?_⟩
      · simp
      · simp
  | some l =>
      by_cases heq : l.event_type = eventTypeOf sf ca
      · rw [trackCbfEvent_last_same ts bv ca sf hlast heq]
        refine ⟨Or.inl rfl, fun h => ?_, ?_, fun h => h⟩
        · subst h; simp at hlast
        · exact ⟨fun _ => ⟨l, rfl, heq⟩, fun _ => rfl⟩
      · rw [trackCbfEvent_last_diff ts bv ca sf hlast heq]
        refine ⟨Or.inr rfl, fun h => ?_, ?_, fun h => ?_⟩
        · subst h; simp at hlast
        · constructor
          · intro habs
            have hlen := congrArg List.length habs
            simp at hlen
          · rintro ⟨l', hl', ht⟩
            cases hl'
            exact absurd ht heq
        · refine List.chain'_append.mpr ⟨h, List.chain'_singleton _, ?_⟩
          intro x hx y hy
          rw [hlast] at hx
          cases hx
          simp at hy
          subst hy
          exact heq

/-- C8 witness: on an empty log, an update with `is_safe = true` and
`cbf_active = false` records a single monitoring event. -/
theorem trackCbfEvent_spec_witness :
    trackCbfEvent [] 0 0 false true = [⟨0, CBFEventType.monitoring, 0⟩] :=
  (trackCbfEvent_spec [] 0 0 false true).2.1 rfl

end RealtimeCharts
